import Mathlib

/-!
# Verification of the CantinaProject order backend (src/app.py)

Shallow embedding of the Flask/SQLite cafeteria backend. The database is a
record of in-memory tables; each HTTP handler becomes a pure function from a
request and a database state to a result and a new database state. Monetary
values (SQLite REAL columns) are embedded as exact rationals `ℚ`, matching the
spec's decimal-arithmetic reading of prices; row ids are `Int`. Randomness used
by the pickup-code generator is an explicit stream of character draws, and its
unbounded retry loop takes a fuel argument. Timestamps (`data_hora`) play no
role in the verified claims and are omitted.
-/

/-- The alphabet `string.ascii_uppercase + string.digits` used by
`gerar_codigo_retirada`. -/
def caracteres : List Char := "ABCDEFGHIJKLMNOPQRSTUVWXYZ0123456789".data

theorem caracteres_length : caracteres.length = 36 := by decide

/-- Value of a decimal digit string, most significant first. -/
def digitsToNat (l : List Char) : Nat :=
  l.foldl (fun a c => a * 10 + (c.toNat - 48)) 0

/-- Strip leading and trailing whitespace from a character list (the
behaviour of Python's `int`/`float` on surrounding whitespace). -/
def trimChars (l : List Char) : List Char :=
  ((l.dropWhile Char.isWhitespace).reverse.dropWhile Char.isWhitespace).reverse

/-- Python `int(s)` on a string: optional surrounding whitespace, optional
sign, then decimal digits; anything else raises `ValueError`. (Python's
underscore digit separators are not modelled; no claim exercises them.) -/
def pyParseInt (s : String) : Option Int :=
  let t := trimChars s.data
  let p : Int × List Char :=
    match t with
    | '-' :: r => (-1, r)
    | '+' :: r => (1, r)
    | _ => (1, t)
  if p.2 ≠ [] ∧ p.2.all Char.isDigit then some (p.1 * digitsToNat p.2) else none

/-- Python `float(s)` on a string: optional whitespace/sign, digits with an
optional fraction part. (Exponent forms are not modelled; no claim exercises
them.) -/
def parseDecimal (s : String) : Option ℚ :=
  let t := trimChars s.data
  let p : ℚ × List Char :=
    match t with
    | '-' :: r => (-1, r)
    | '+' :: r => (1, r)
    | _ => (1, t)
  let ip := p.2.takeWhile Char.isDigit
  match p.2.dropWhile Char.isDigit with
  | [] => if ip = [] then none else some (p.1 * digitsToNat ip)
  | '.' :: fp =>
      if fp.all Char.isDigit ∧ (ip ≠ [] ∨ fp ≠ []) then
        some (p.1 * ((digitsToNat ip : ℚ) + (digitsToNat fp : ℚ) / (10 ^ fp.length)))
      else none
  | _ => none

/-- Truncation toward zero, the behaviour of Python `int()` on a float: the
truncating division of the reduced numerator by the denominator. -/
def ratTrunc (q : ℚ) : Int := q.num.tdiv q.den

/-- A JSON scalar as Python's `json` module delivers it: `int`, `float` or
`str`. (JSON `null`/objects/arrays in a numeric position raise `TypeError`,
reaching the generic 500 handler; no claim exercises that path.) -/
inductive JVal where
  | jint (n : Int)
  | jfloat (q : ℚ)
  | jstr (s : String)
deriving DecidableEq

/-- Python `int(v)`: identity on ints, truncation toward zero on floats,
string parse on strings (`none` = `ValueError`). -/
def pyInt : JVal → Option Int
  | .jint n => some n
  | .jfloat q => some (ratTrunc q)
  | .jstr s => pyParseInt s

/-- Python `float(v)` (`none` = `ValueError`). -/
def pyFloat : JVal → Option ℚ
  | .jint n => some n
  | .jfloat q => some q
  | .jstr s => parseDecimal s

/-! ## Data model: the SQLite tables of `init_db_logic` -/

/-- A row of `produtos`. -/
structure Produto where
  id : Int
  nome : String
  descricao : String
  preco : ℚ
  categoria : String
  imagem_url : Option String
  disponivel : Bool
deriving DecidableEq

/-- A row of `pedidos` (the `data_hora` timestamp is omitted; no claim uses
it). `status` is constrained by the CHECK to the five Portuguese values. -/
structure Pedido where
  id : Int
  cliente_identificador : Option String
  codigo_retirada : String
  status : String
  valor_total : ℚ
deriving DecidableEq

/-- A row of `itens_pedido`. -/
structure ItemPedido where
  id : Int
  pedido_id : Int
  produto_id : Int
  quantidade : Int
  preco_unitario_compra : ℚ
deriving DecidableEq

/-- The database: the three tables the claims touch, plus the AUTOINCREMENT
counters (`categorias` is unused by every handler under verification). -/
structure DB where
  produtos : List Produto
  pedidos : List Pedido
  itens_pedido : List ItemPedido
  next_produto_id : Int
  next_pedido_id : Int
  next_item_id : Int
deriving DecidableEq

/-- `SELECT id FROM pedidos WHERE codigo_retirada = ?` returned a row. -/
def codeExists (db : DB) (codigo : String) : Bool :=
  db.pedidos.any fun p => p.codigo_retirada == codigo

/-! ## Code generator (`gerar_codigo_retirada`, app.py lines 146–154)

The Python draws 7 characters per candidate with `random.choice`; the
randomness source is modelled as a stream `rnd : Nat → Fin 36` of character
indices, candidate `k` using draws `k*7 .. k*7+6`. The unbounded `while True`
loop takes fuel; `none` models non-termination of the retry loop. -/

def tamanhoCodigo : Nat := 7

/-- The `k`-th candidate code drawn from the stream. -/
def codigoCandidato (rnd : Nat → Fin 36) (k : Nat) : String :=
  String.mk ((List.range tamanhoCodigo).map fun i =>
    caracteres.get ⟨(rnd (k * tamanhoCodigo + i)).val, by
      rw [caracteres_length]; exact (rnd (k * tamanhoCodigo + i)).isLt⟩)

/-- Retry loop of `gerar_codigo_retirada`: try candidate `k`, redraw while the
code already exists in `pedidos`. -/
def gerarCodigoAux (db : DB) (rnd : Nat → Fin 36) : Nat → Nat → Option String
  | _, 0 => none
  | k, fuel + 1 =>
      let c := codigoCandidato rnd k
      if codeExists db c then gerarCodigoAux db rnd (k + 1) fuel else some c

/-- `gerar_codigo_retirada(tamanho=7)`. -/
def gerar_codigo_retirada (db : DB) (rnd : Nat → Fin 36) (fuel : Nat) : Option String :=
  gerarCodigoAux db rnd 0 fuel

/-! ## PlaceOrder (`cliente_criar_pedido`, app.py lines 423–500) -/

/-- One entry of the request's `itens` list; `none` models a missing key. -/
structure ItemReq where
  produto_id : Option JVal
  quantidade : Option JVal
deriving DecidableEq

/-- The request body of `POST /pedidos`. A missing or non-list `itens` key is
reported by the same branch as an empty list and is modelled by `itens = []`. -/
structure PedidoReq where
  cliente_identificador : Option String
  itens : List ItemReq
deriving DecidableEq

/-- One entry of `itens_pedido_info`, gathered during validation. -/
structure ItemInfo where
  produto_id : Int
  quantidade : Int
  preco_unitario_compra : ℚ
deriving DecidableEq

/-- Outcome of `cliente_criar_pedido`, one constructor per `return` site. -/
inductive CriarPedidoResult where
  /-- 201: `{pedido_id, codigo_retirada, valor_total, status: PENDENTE}`. -/
  | ok (pedido_id : Int) (codigo_retirada : String) (valor_total : ℚ)
  /-- 400: missing/empty/non-list `itens`. -/
  | errDadosIncompletos
  /-- 400: an item lacks `produto_id` or `quantidade`. -/
  | errItemMalformado
  /-- 400: `int()` raised `ValueError` on `produto_id` or `quantidade`. -/
  | errValorInvalido
  /-- 400: quantity ≤ 0 for the given product id. -/
  | errQuantidadeInvalida (produto_id : Int)
  /-- 404: no product with the given id. -/
  | errProdutoNaoEncontrado (produto_id : Int)
  /-- 400: the product is marked unavailable. -/
  | errProdutoIndisponivel (produto_id : Int)
  /-- 400: computed total ≤ 0. -/
  | errValorTotalInvalido
  /-- 500: an exception reached the generic handler (rollback performed). -/
  | errInterno
deriving DecidableEq

def CriarPedidoResult.isOk : CriarPedidoResult → Bool
  | .ok _ _ _ => true
  | _ => false

/-- Validation errors raised inside the item loop (lines 440–459). -/
inductive ValErr where
  | itemMalformado
  | valorInvalido
  | quantidadeInvalida (produto_id : Int)
  | naoEncontrado (produto_id : Int)
  | indisponivel (produto_id : Int)
deriving DecidableEq

def ValErr.toResult : ValErr → CriarPedidoResult
  | .itemMalformado => .errItemMalformado
  | .valorInvalido => .errValorInvalido
  | .quantidadeInvalida pid => .errQuantidadeInvalida pid
  | .naoEncontrado pid => .errProdutoNaoEncontrado pid
  | .indisponivel pid => .errProdutoIndisponivel pid

/-- The validation loop over `dados['itens']`: per entry, in order — key
presence, `int()` parses (product id first), positivity, existence in
`produtos`, availability — returning the first failure, otherwise the
collected `itens_pedido_info` and the accumulated total. The Python
accumulates `valor_total_pedido` left to right with `+=`; over exact `ℚ`
arithmetic that left sum equals the right-nested sum computed here. -/
def validarItens (db : DB) : List ItemReq → Except ValErr (List ItemInfo × ℚ)
  | [] => .ok ([], 0)
  | it :: rest =>
      match it.produto_id, it.quantidade with
      | none, _ => .error .itemMalformado
      | some _, none => .error .itemMalformado
      | some pv, some qv =>
          match pyInt pv with
          | none => .error .valorInvalido
          | some pid =>
              match pyInt qv with
              | none => .error .valorInvalido
              | some q =>
                  if q ≤ 0 then .error (.quantidadeInvalida pid)
                  else
                    match db.produtos.find? (fun p => p.id == pid) with
                    | none => .error (.naoEncontrado pid)
                    | some prod =>
                        if !prod.disponivel then .error (.indisponivel pid)
                        else
                          match validarItens db rest with
                          | .error e => .error e
                          | .ok (infos, total) =>
                              .ok (⟨pid, q, prod.preco⟩ :: infos,
                                   q * prod.preco + total)

/-- Lines 473–482: the write phase, given the already generated code. The
`pedidos` insert raises `IntegrityError` when the code violates the UNIQUE
constraint, and an `itens_pedido` insert raises it when the request repeats a
product (UNIQUE (pedido_id, produto_id)); either lands in the generic
`except Exception` handler, which rolls back and returns a 500 — so those
branches yield `errInterno` with the database unchanged. -/
def criarPedidoFinalize (db : DB) (cliente : Option String)
    (infos : List ItemInfo) (total : ℚ) (codigo : String) :
    CriarPedidoResult × DB :=
  if codeExists db codigo then (.errInterno, db)
  else if (infos.map ItemInfo.produto_id).Nodup then
    let pid := db.next_pedido_id
    let pedido : Pedido := ⟨pid, cliente, codigo, "PENDENTE", total⟩
    let novos := infos.enum.map fun e =>
      (⟨db.next_item_id + e.1, pid, e.2.produto_id, e.2.quantidade,
        e.2.preco_unitario_compra⟩ : ItemPedido)
    (.ok pid codigo total,
     { db with pedidos := db.pedidos ++ [pedido],
               itens_pedido := db.itens_pedido ++ novos,
               next_pedido_id := pid + 1,
               next_item_id := db.next_item_id + infos.length })
  else (.errInterno, db)

/-- `POST /pedidos` (`cliente_criar_pedido`). `rnd`/`fuel` parametrise the
code generator; fuel exhaustion (the unbounded Python loop not returning) is
mapped to the 500 handler. -/
def cliente_criar_pedido (req : PedidoReq) (db : DB) (rnd : Nat → Fin 36)
    (fuel : Nat) : CriarPedidoResult × DB :=
  if req.itens.isEmpty then (.errDadosIncompletos, db)
  else
    match validarItens db req.itens with
    | .error e => (e.toResult, db)
    | .ok (infos, total) =>
        if total ≤ 0 then (.errValorTotalInvalido, db)
        else
          match gerar_codigo_retirada db rnd fuel with
          | none => (.errInterno, db)
          | some codigo =>
              criarPedidoFinalize db (req.cliente_identificador.map String.trim)
                infos total codigo

/-! ## Public product fetch (`cliente_obter_produto`, app.py lines 408–421) -/

/-- `GET /produtos/{id}`: `SELECT ... WHERE id = ? AND disponivel = TRUE`.
`none` is the single 404 response "Produto não encontrado ou indisponível",
produced both for an absent id and for an unavailable product. -/
def cliente_obter_produto (produto_id : Int) (db : DB) : Option Produto :=
  db.produtos.find? fun p => p.id == produto_id && p.disponivel

/-! ## Admin product management (app.py lines 159–286) -/

/-- Outcome of `admin_adicionar_produto`. -/
inductive AdicionarResult where
  | okA (p : Produto)
  | errDados          -- 400: `nome` or `preco` missing
  | errValorA         -- 400: `float(preco)` raised `ValueError`
  | errPrecoA         -- 400: price ≤ 0
deriving DecidableEq

/-- Request body for `POST /admin/produtos`. -/
structure NovoProdutoReq where
  nome : Option String
  preco : Option JVal
  descricao : Option String
  categoria : Option String
  imagem_url : Option String
  disponivel : Option Bool
deriving DecidableEq

/-- `POST /admin/produtos` (`admin_adicionar_produto`). -/
def admin_adicionar_produto (req : NovoProdutoReq) (db : DB) :
    AdicionarResult × DB :=
  match req.nome, req.preco with
  | none, _ => (.errDados, db)
  | some _, none => (.errDados, db)
  | some nome, some pv =>
      match pyFloat pv with
      | none => (.errValorA, db)
      | some preco =>
          if preco ≤ 0 then (.errPrecoA, db)
          else
            let p : Produto :=
              ⟨db.next_produto_id, nome.trim,
               ((req.descricao.getD "").trim),
               preco, ((req.categoria.getD "Geral").trim),
               req.imagem_url.map String.trim,
               req.disponivel.getD true⟩
            (.okA p, { db with produtos := db.produtos ++ [p],
                               next_produto_id := db.next_produto_id + 1 })

/-- Partial-update request for `PUT /admin/produtos/{id}`; `none` = key not
present. For `imagem_url`, `some none` models an explicit falsy value (stored
as NULL). -/
structure ProdutoUpdateReq where
  nome : Option String
  descricao : Option String
  preco : Option JVal
  categoria : Option String
  imagem_url : Option (Option String)
  disponivel : Option Bool
deriving DecidableEq

def ProdutoUpdateReq.isEmpty (r : ProdutoUpdateReq) : Bool :=
  r.nome.isNone && r.descricao.isNone && r.preco.isNone && r.categoria.isNone
    && r.imagem_url.isNone && r.disponivel.isNone

/-- Outcome of `admin_atualizar_produto`. -/
inductive AtualizarResult where
  | okU               -- 200, updated row returned
  | errSemDados       -- 400: empty body
  | errNaoEncontradoU -- 404
  | errValorU         -- 400: `float(preco)` raised `ValueError`
  | errPrecoU         -- 400: price ≤ 0
deriving DecidableEq

/-- Apply the collected SET clauses to the matching row. -/
def aplicarUpdate (req : ProdutoUpdateReq) (precoNovo : Option ℚ)
    (p : Produto) : Produto :=
  { p with
    nome := (req.nome.map String.trim).getD p.nome,
    descricao := (req.descricao.map String.trim).getD p.descricao,
    preco := precoNovo.getD p.preco,
    categoria := (req.categoria.map String.trim).getD p.categoria,
    imagem_url := (req.imagem_url.map (·.map String.trim)).getD p.imagem_url,
    disponivel := req.disponivel.getD p.disponivel }

/-- `PUT /admin/produtos/{id}` (`admin_atualizar_produto`): empty body → 400,
missing product → 404, bad/non-positive price → 400, else a single UPDATE of
the matching `produtos` row. (A body holding only unknown keys reaches the
"no valid field" 400 in Python; the record request type cannot express unknown
keys, and no claim depends on that branch.) -/
def admin_atualizar_produto (produto_id : Int) (req : ProdutoUpdateReq)
    (db : DB) : AtualizarResult × DB :=
  if req.isEmpty then (.errSemDados, db)
  else
    match db.produtos.find? (fun p => p.id == produto_id) with
    | none => (.errNaoEncontradoU, db)
    | some _ =>
        match req.preco with
        | some pv =>
            match pyFloat pv with
            | none => (.errValorU, db)
            | some preco =>
                if preco ≤ 0 then (.errPrecoU, db)
                else
                  (.okU, { db with produtos := db.produtos.map fun p =>
                    if p.id == produto_id then aplicarUpdate req (some preco) p
                    else p })
        | none =>
            (.okU, { db with produtos := db.produtos.map fun p =>
              if p.id == produto_id then aplicarUpdate req none p else p })

/-- Outcome of `admin_deletar_produto`. -/
inductive DeletarResult where
  | okD               -- 200, row deleted
  | errNaoEncontradoD -- 404
  | errConflito       -- 409: referenced by order line items
deriving DecidableEq

/-- `DELETE /admin/produtos/{id}` (`admin_deletar_produto`): missing product →
404; `COUNT(*) FROM itens_pedido WHERE produto_id = ?` positive → 409 with no
write; otherwise the row is deleted. -/
def admin_deletar_produto (produto_id : Int) (db : DB) : DeletarResult × DB :=
  match db.produtos.find? (fun p => p.id == produto_id) with
  | none => (.errNaoEncontradoD, db)
  | some _ =>
      if 0 < db.itens_pedido.countP (fun it => it.produto_id == produto_id) then
        (.errConflito, db)
      else
        (.okD, { db with produtos :=
                  db.produtos.filter fun p => !(p.id == produto_id) })

/-! ## Admin status update (`admin_atualizar_status_pedido`, lines 352–378) -/

def statusPermitidos : List String :=
  ["PENDENTE", "PREPARANDO", "PRONTO", "ENTREGUE", "CANCELADO"]

/-- Outcome of `admin_atualizar_status_pedido`. -/
inductive StatusResult where
  | okS
  | errSemStatus      -- 400: no `status` key
  | errStatusInvalido -- 400: not one of the five values
  | errNaoEncontradoS -- 404: no order with this pickup code
deriving DecidableEq

/-- `PUT /admin/pedidos/{codigo}/status`. -/
def admin_atualizar_status_pedido (codigo_retirada : String)
    (status : Option String) (db : DB) : StatusResult × DB :=
  match status with
  | none => (.errSemStatus, db)
  | some s =>
      let novo := s.toUpper
      if novo ∈ statusPermitidos then
        if db.pedidos.any (fun p => p.codigo_retirada == codigo_retirada) then
          (.okS, { db with pedidos := db.pedidos.map fun p =>
            if p.codigo_retirada == codigo_retirada then { p with status := novo }
            else p })
        else (.errNaoEncontradoS, db)
      else (.errStatusInvalido, db)

/-! ## Invariants -/

/-- Pickup codes are pairwise distinct across all stored orders. Orders are
never deleted, so this is uniqueness across all orders ever created. -/
def codesUnique (db : DB) : Prop :=
  (db.pedidos.map Pedido.codigo_retirada).Nodup

instance (db : DB) : Decidable (codesUnique db) := by
  unfold codesUnique; infer_instance

/-- Rowid discipline maintained by SQLite AUTOINCREMENT: every stored line
item's `pedido_id` is below the next `pedidos` rowid. -/
def DB.wf (db : DB) : Prop :=
  ∀ it ∈ db.itens_pedido, it.pedido_id < db.next_pedido_id

/-! ## Lemmas about the code generator -/

theorem codigoCandidato_length (rnd : Nat → Fin 36) (k : Nat) :
    (codigoCandidato rnd k).length = tamanhoCodigo := by
  simp [codigoCandidato, String.length]

theorem codigoCandidato_mem (rnd : Nat → Fin 36) (k : Nat) :
    ∀ ch ∈ (codigoCandidato rnd k).data, ch ∈ caracteres := by
  intro ch hch
  simp only [codigoCandidato, String.mk, List.mem_map] at hch
  obtain ⟨i, _, hi⟩ := hch
  exact hi ▸ List.get_mem _ _ _

theorem gerarCodigoAux_spec (db : DB) (rnd : Nat → Fin 36) :
    ∀ fuel k c, gerarCodigoAux db rnd k fuel = some c →
      codeExists db c = false ∧ c.length = tamanhoCodigo ∧
      ∀ ch ∈ c.data, ch ∈ caracteres := by
  intro fuel
  induction fuel with
  | zero => intro k c h; simp [gerarCodigoAux] at h
  | succ n ih =>
      intro k c h
      simp only [gerarCodigoAux] at h
      by_cases hex : codeExists db (codigoCandidato rnd k) = true
      · rw [if_pos hex] at h
        exact ih (k + 1) c h
      · rw [if_neg hex] at h
        cases h
        exact ⟨Bool.eq_false_iff.mpr hex, codigoCandidato_length rnd k,
               codigoCandidato_mem rnd k⟩

theorem gerar_codigo_retirada_spec (db : DB) (rnd : Nat → Fin 36) (fuel : Nat)
    (c : String) (h : gerar_codigo_retirada db rnd fuel = some c) :
    codeExists db c = false ∧ c.length = tamanhoCodigo ∧
    ∀ ch ∈ c.data, ch ∈ caracteres :=
  gerarCodigoAux_spec db rnd fuel 0 c h

/-! ## Lemmas about the validation loop -/

/-- Structure of a successful validation pass: the accumulated total is the
sum of quantity × captured unit price over the collected infos; each info
records a positive quantity and the price of the available catalog row that
`SELECT ... WHERE id = ?` found; one info per request entry. -/
theorem validarItens_spec (db : DB) :
    ∀ (its : List ItemReq) (infos : List ItemInfo) (total : ℚ),
      validarItens db its = .ok (infos, total) →
      total = (infos.map fun i => (i.quantidade : ℚ) * i.preco_unitario_compra).sum ∧
      (∀ i ∈ infos, 0 < i.quantidade ∧
        ∃ p, db.produtos.find? (fun r => r.id == i.produto_id) = some p ∧
             p.preco = i.preco_unitario_compra ∧ p.disponivel = true) ∧
      infos.length = its.length := by
  intro its
  induction its with
  | nil =>
      intro infos total h
      simp only [validarItens, Except.ok.injEq, Prod.mk.injEq] at h
      obtain ⟨h1, h2⟩ := h
      subst h1; subst h2
      simp
  | cons it rest ih =>
      intro infos total h
      simp only [validarItens] at h
      split at h
      · cases h
      · cases h
      split at h
      · cases h
      rename_i pv qv pid hip
      split at h
      · cases h
      rename_i q hiq
      split at h
      · cases h
      rename_i hq
      split at h
      · cases h
      rename_i prod hf
      split at h
      · cases h
      rename_i hd
      split at h
      · cases h
      rename_i infos' total' hrest
      simp only [Except.ok.injEq, Prod.mk.injEq] at h
      obtain ⟨h1, h2⟩ := h
      subst h1; subst h2
      obtain ⟨ihs, ihm, ihl⟩ := ih infos' total' hrest
      have hdisp : prod.disponivel = true := by
        simpa using hd
      refine ⟨?_, ?_, ?_⟩
      · simp [ihs]
      · intro i hi
        rcases List.mem_cons.mp hi with hi | hi
        · subst hi
          exact ⟨lt_of_not_le hq, prod, hf, rfl, hdisp⟩
        · exact ihm i hi
      · simp [ihl]

/-! ## Lemmas about `cliente_criar_pedido` -/

/-- Shape of the database after a successful PlaceOrder: one order header
appended carrying the validated total and the generated code, and one line
item appended per validated entry. -/
theorem criar_pedido_ok_spec (req : PedidoReq) (db : DB) (rnd : Nat → Fin 36)
    (fuel : Nat) (pid : Int) (cod : String) (total : ℚ) (db' : DB)
    (h : cliente_criar_pedido req db rnd fuel = (.ok pid cod total, db')) :
    ∃ infos, validarItens db req.itens = .ok (infos, total) ∧
      pid = db.next_pedido_id ∧
      codeExists db cod = false ∧
      db'.produtos = db.produtos ∧
      db'.pedidos = db.pedidos ++
        [⟨pid, req.cliente_identificador.map String.trim, cod, "PENDENTE", total⟩] ∧
      db'.itens_pedido = db.itens_pedido ++ infos.enum.map (fun e =>
        (⟨db.next_item_id + e.1, pid, e.2.produto_id, e.2.quantidade,
          e.2.preco_unitario_compra⟩ : ItemPedido)) := by
  unfold cliente_criar_pedido at h
  split at h
  · cases h
  split at h
  · rename_i e _
    simp only [Prod.mk.injEq] at h
    cases e <;> simp [ValErr.toResult] at h
  rename_i infos' total' hval
  split at h
  · cases h
  rename_i htot
  split at h
  · cases h
  rename_i cod' hgen
  unfold criarPedidoFinalize at h
  split at h
  · cases h
  rename_i hcode
  split at h
  · simp only [Prod.mk.injEq, CriarPedidoResult.ok.injEq] at h
    obtain ⟨⟨hpid, hcod, htotal⟩, hdb⟩ := h
    subst hpid; subst hcod; subst htotal; subst hdb
    exact ⟨infos', hval, rfl, Bool.eq_false_iff.mpr hcode, rfl, rfl, rfl⟩
  · cases h

/-- Every outcome of PlaceOrder other than the 201 leaves the database
unchanged. -/
theorem criar_pedido_err_spec (req : PedidoReq) (db : DB) (rnd : Nat → Fin 36)
    (fuel : Nat) :
    (cliente_criar_pedido req db rnd fuel).1.isOk = true ∨
    (cliente_criar_pedido req db rnd fuel).2 = db := by
  unfold cliente_criar_pedido criarPedidoFinalize
  repeat' split
  all_goals simp [CriarPedidoResult.isOk]

/-- A list of validated entries with positive quantities and prices has a
positive total. -/
theorem infos_sum_pos (infos : List ItemInfo) (hne : infos ≠ [])
    (h : ∀ i ∈ infos, 0 < i.quantidade ∧ 0 < i.preco_unitario_compra) :
    0 < (infos.map fun i => (i.quantidade : ℚ) * i.preco_unitario_compra).sum := by
  apply List.sum_pos
  · intro x hx
    obtain ⟨i, hi, rfl⟩ := List.mem_map.mp hx
    obtain ⟨hq, hp⟩ := h i hi
    exact mul_pos (by exact_mod_cast hq) hp
  · simp only [ne_eq, List.map_eq_nil_iff]
    exact hne

theorem snd_mem_of_mem_enum {α : Type _} {l : List α} {e : Nat × α}
    (h : e ∈ l.enum) : e.2 ∈ l := by
  have h2 : e.2 ∈ l.enum.map Prod.snd := List.mem_map_of_mem Prod.snd h
  rwa [List.enum_map_snd] at h2

/-- C1. For every valid PlaceOrder request, the total stored in the order
header and returned in the response equals the exact sum over the inserted
line items of quantity times purchase-time unit price, where each line item's
purchase-time unit price equals the catalog price read during that request. -/
theorem claim_C1 (req : PedidoReq) (db : DB) (rnd : Nat → Fin 36) (fuel : Nat)
    (pid : Int) (cod : String) (total : ℚ) (db' : DB)
    (hwf : DB.wf db)
    (h : cliente_criar_pedido req db rnd fuel = (.ok pid cod total, db')) :
    (∃ ped ∈ db'.pedidos, ped.id = pid ∧ ped.valor_total = total) ∧
    total = ((db'.itens_pedido.filter fun it => it.pedido_id == pid).map
              fun it => (it.quantidade : ℚ) * it.preco_unitario_compra).sum ∧
    ∀ it ∈ db'.itens_pedido.filter fun it => it.pedido_id == pid,
      ∃ p, db.produtos.find? (fun r => r.id == it.produto_id) = some p ∧
           it.preco_unitario_compra = p.preco := by
  obtain ⟨infos, hval, hpid, hcode, hprodtbl, hped, hitens⟩ :=
    criar_pedido_ok_spec req db rnd fuel pid cod total db' h
  obtain ⟨hsum, hmem, hlen⟩ := validarItens_spec db req.itens infos total hval
  have hfilter : (db'.itens_pedido.filter fun it => it.pedido_id == pid)
      = infos.enum.map (fun e => (⟨db.next_item_id + e.1, pid, e.2.produto_id,
          e.2.quantidade, e.2.preco_unitario_compra⟩ : ItemPedido)) := by
    rw [hitens, List.filter_append]
    have h1 : db.itens_pedido.filter (fun it => it.pedido_id == pid) = [] := by
      rw [List.filter_eq_nil_iff]
      intro it hit
      have hlt := hwf it hit
      subst hpid
      simp only [beq_iff_eq]
      omega
    have h2 : (infos.enum.map (fun e => (⟨db.next_item_id + e.1, pid,
          e.2.produto_id, e.2.quantidade, e.2.preco_unitario_compra⟩ :
          ItemPedido))).filter (fun it => it.pedido_id == pid)
        = infos.enum.map (fun e => (⟨db.next_item_id + e.1, pid, e.2.produto_id,
            e.2.quantidade, e.2.preco_unitario_compra⟩ : ItemPedido)) := by
      rw [List.filter_eq_self]
      intro a ha
      obtain ⟨e, _, rfl⟩ := List.mem_map.mp ha
      simp
    rw [h1, h2, List.nil_append]
  refine ⟨?_, ?_, ?_⟩
  · refine ⟨⟨pid, req.cliente_identificador.map String.trim, cod, "PENDENTE",
      total⟩, ?_, rfl, rfl⟩
    rw [hped]
    simp
  · rw [hfilter, List.map_map]
    have hcomp : ((fun it : ItemPedido =>
          (it.quantidade : ℚ) * it.preco_unitario_compra) ∘
        (fun e : Nat × ItemInfo => (⟨db.next_item_id + e.1, pid, e.2.produto_id,
          e.2.quantidade, e.2.preco_unitario_compra⟩ : ItemPedido)))
        = ((fun i : ItemInfo => (i.quantidade : ℚ) * i.preco_unitario_compra) ∘
           Prod.snd) := rfl
    rw [hcomp, ← List.map_map, List.enum_map_snd]
    exact hsum
  · rw [hfilter]
    intro it hit
    obtain ⟨e, he, rfl⟩ := List.mem_map.mp hit
    obtain ⟨_, p, hp, hpreco, _⟩ := hmem e.2 (snd_mem_of_mem_enum he)
    exact ⟨p, hp, hpreco.symm⟩

/-- C2. Every PlaceOrder request that fails validation (or any other
non-success outcome) returns an error and writes no rows: the database is
unchanged. -/
theorem claim_C2 (req : PedidoReq) (db : DB) (rnd : Nat → Fin 36) (fuel : Nat)
    (h : (cliente_criar_pedido req db rnd fuel).1.isOk = false) :
    (cliente_criar_pedido req db rnd fuel).2 = db := by
  rcases criar_pedido_err_spec req db rnd fuel with h' | h'
  · rw [h] at h'; cases h'
  · exact h'

/-- C8. With every catalog price strictly positive, the computed grand total
of a request that passes validation is strictly positive, so the
`InvalidOrderTotal` branch of PlaceOrder is unreachable. -/
theorem claim_C8 (req : PedidoReq) (db : DB) (rnd : Nat → Fin 36) (fuel : Nat)
    (hpos : ∀ p ∈ db.produtos, 0 < p.preco) :
    (cliente_criar_pedido req db rnd fuel).1 ≠ .errValorTotalInvalido := by
  intro hcontra
  unfold cliente_criar_pedido at hcontra
  split at hcontra
  · simp at hcontra
  rename_i hne
  split at hcontra
  · rename_i e heq
    cases e <;> simp [ValErr.toResult] at hcontra
  rename_i infos total hval
  split at hcontra
  · rename_i htot
    obtain ⟨hsum, hmem, hlen⟩ := validarItens_spec db req.itens infos total hval
    have hne' : infos ≠ [] := by
      intro hnil
      apply hne
      rw [hnil] at hlen
      have : req.itens = [] := List.eq_nil_of_length_eq_zero hlen.symm
      rw [this]
      rfl
    have hptot : 0 < total := by
      rw [hsum]
      apply infos_sum_pos infos hne'
      intro i hi
      obtain ⟨hq, p, hp, hpreco, _⟩ := hmem i hi
      refine ⟨hq, ?_⟩
      rw [← hpreco]
      exact hpos p (List.mem_of_find?_eq_some hp)
    exact absurd hptot (not_lt.mpr htot)
  split at hcontra
  · simp at hcontra
  · unfold criarPedidoFinalize at hcontra
    split at hcontra
    · simp at hcontra
    split at hcontra <;> simp at hcontra

/-! ## Lemmas about code uniqueness -/

/-- Appending an order whose code is absent from the store preserves pairwise
distinctness of pickup codes. -/
theorem codesUnique_append (db : DB) (ped : Pedido) (hu : codesUnique db)
    (hnew : codeExists db ped.codigo_retirada = false) :
    ((db.pedidos ++ [ped]).map Pedido.codigo_retirada).Nodup := by
  rw [List.map_append, List.nodup_append]
  refine ⟨hu, List.nodup_singleton _, ?_⟩
  intro a ha hb
  simp only [List.map_cons, List.map_nil, List.mem_singleton] at hb
  subst hb
  obtain ⟨p, hp, hpa⟩ := List.mem_map.mp ha
  have hex : codeExists db ped.codigo_retirada = true := by
    simp only [codeExists, List.any_eq_true, beq_iff_eq]
    exact ⟨p, hp, hpa⟩
  rw [hnew] at hex
  cases hex

/-- A row-wise transformation that never touches the code column preserves
pairwise distinctness of pickup codes. -/
theorem codesUnique_map (db : DB) (f : Pedido → Pedido)
    (hf : ∀ p, (f p).codigo_retirada = p.codigo_retirada)
    (hu : codesUnique db) :
    ((db.pedidos.map f).map Pedido.codigo_retirada).Nodup := by
  rw [List.map_map]
  have hcomp : Pedido.codigo_retirada ∘ f = Pedido.codigo_retirada := funext hf
  rw [hcomp]
  exact hu

theorem adicionar_pedidos_eq (npr : NovoProdutoReq) (db : DB) :
    (admin_adicionar_produto npr db).2.pedidos = db.pedidos := by
  unfold admin_adicionar_produto
  repeat' split
  all_goals rfl

theorem atualizar_pedidos_eq (produto_id : Int) (req : ProdutoUpdateReq)
    (db : DB) :
    (admin_atualizar_produto produto_id req db).2.pedidos = db.pedidos := by
  unfold admin_atualizar_produto
  repeat' split
  all_goals rfl

theorem deletar_pedidos_eq (produto_id : Int) (db : DB) :
    (admin_deletar_produto produto_id db).2.pedidos = db.pedidos := by
  unfold admin_deletar_produto
  repeat' split
  all_goals rfl

/-- C4. Every generated pickup code is 7 characters over `A–Z0–9` and absent
from the store at generation time, and code uniqueness across all orders is
preserved by every state-changing operation. -/
theorem claim_C4 (db : DB) (rnd : Nat → Fin 36) (fuel : Nat) (c : String)
    (req : PedidoReq) (npr : NovoProdutoReq) (pidU pidD : Int)
    (upd : ProdutoUpdateReq) (codS : String) (st : Option String) :
    (gerar_codigo_retirada db rnd fuel = some c →
       c.length = 7 ∧ (∀ ch ∈ c.data, ch ∈ caracteres) ∧
       codeExists db c = false) ∧
    (codesUnique db →
       codesUnique (cliente_criar_pedido req db rnd fuel).2 ∧
       codesUnique (admin_adicionar_produto npr db).2 ∧
       codesUnique (admin_atualizar_produto pidU upd db).2 ∧
       codesUnique (admin_deletar_produto pidD db).2 ∧
       codesUnique (admin_atualizar_status_pedido codS st db).2) := by
  constructor
  · intro h
    obtain ⟨h1, h2, h3⟩ := gerar_codigo_retirada_spec db rnd fuel c h
    exact ⟨h2, h3, h1⟩
  · intro hu
    refine ⟨?_, ?_, ?_, ?_, ?_⟩
    · rcases criar_pedido_err_spec req db rnd fuel with hok | hfix
      · cases hok' : (cliente_criar_pedido req db rnd fuel).1
        case ok pid cod total =>
          have heq : cliente_criar_pedido req db rnd fuel
              = (.ok pid cod total, (cliente_criar_pedido req db rnd fuel).2) := by
            rw [← hok']
          obtain ⟨infos, _, _, hcode, _, hped, _⟩ :=
            criar_pedido_ok_spec req db rnd fuel pid cod total _ heq
          unfold codesUnique
          rw [hped]
          exact codesUnique_append db _ hu hcode
        all_goals rw [hok'] at hok
        all_goals simp [CriarPedidoResult.isOk] at hok
      · rw [hfix]
        exact hu
    · unfold codesUnique
      rw [adicionar_pedidos_eq]
      exact hu
    · unfold codesUnique
      rw [atualizar_pedidos_eq]
      exact hu
    · unfold codesUnique
      rw [deletar_pedidos_eq]
      exact hu
    · unfold admin_atualizar_status_pedido
      cases st with
      | none => exact hu
      | some s =>
          dsimp only
          by_cases hperm : s.toUpper ∈ statusPermitidos
          · rw [if_pos hperm]
            by_cases hany : (db.pedidos.any
                fun p => p.codigo_retirada == codS) = true
            · rw [if_pos hany]
              exact codesUnique_map db _ (fun p => by split <;> rfl) hu
            · rw [if_neg hany]
              exact hu
          · rw [if_neg hperm]
            exact hu

/-- C5. A catalog update (`PUT /admin/produtos/{id}`) never changes the
`pedidos` or `itens_pedido` tables, and every product row with a different id
survives unchanged: an existing order's stored total and its line items'
purchase-time prices are immune to price changes. -/
theorem claim_C5 (produto_id : Int) (req : ProdutoUpdateReq) (db : DB) :
    (admin_atualizar_produto produto_id req db).2.pedidos = db.pedidos ∧
    (admin_atualizar_produto produto_id req db).2.itens_pedido = db.itens_pedido ∧
    ∀ p ∈ db.produtos, p.id ≠ produto_id →
      p ∈ (admin_atualizar_produto produto_id req db).2.produtos := by
  unfold admin_atualizar_produto
  repeat' split
  all_goals refine ⟨rfl, rfl, fun p hp hne => ?_⟩
  all_goals
    first
      | exact hp
      | exact (by simp [hne] : (if p.id == produto_id then
            aplicarUpdate req _ p else p) = p) ▸ List.mem_map_of_mem _ hp

/-- C9. Deleting a product referenced by at least one order line item fails
with a 409 conflict and leaves the database unchanged; deletion succeeds only
when no line item references the product. -/
theorem claim_C9 (produto_id : Int) (db : DB) :
    ((∃ p ∈ db.produtos, p.id = produto_id) →
     (∃ it ∈ db.itens_pedido, it.produto_id = produto_id) →
       admin_deletar_produto produto_id db = (.errConflito, db)) ∧
    ((admin_deletar_produto produto_id db).1 = .okD →
       ∀ it ∈ db.itens_pedido, it.produto_id ≠ produto_id) := by
  constructor
  · rintro ⟨p, hp, hpid⟩ ⟨it, hit, hitpid⟩
    unfold admin_deletar_produto
    have hfind : (db.produtos.find? fun q => q.id == produto_id).isSome := by
      rw [List.find?_isSome]
      exact ⟨p, hp, by simp [hpid]⟩
    split
    · rename_i hf
      rw [hf] at hfind
      simp at hfind
    · have hcount : 0 < db.itens_pedido.countP
          fun r => r.produto_id == produto_id := by
        rw [List.countP_pos_iff]
        exact ⟨it, hit, by simp [hitpid]⟩
      rw [if_pos hcount]
  · intro hok it hit hpid
    unfold admin_deletar_produto at hok
    split at hok
    · cases hok
    · split at hok
      · cases hok
      · rename_i hcount
        apply hcount
        rw [List.countP_pos_iff]
        exact ⟨it, hit, by simp [hpid]⟩

/-- C10. `GET /produtos/{id}` filters on `disponivel = TRUE`: when every row
with the requested id is unavailable the lookup returns the same `none` (the
single 404 response) that a nonexistent id produces. -/
theorem claim_C10 (db : DB) (produto_id : Int)
    (h : ∀ p ∈ db.produtos, p.id = produto_id → p.disponivel = false) :
    cliente_obter_produto produto_id db = none ∧
    ∀ db2 : DB, (∀ p ∈ db2.produtos, p.id ≠ produto_id) →
      cliente_obter_produto produto_id db2 = none := by
  constructor
  · unfold cliente_obter_produto
    rw [List.find?_eq_none]
    intro p hp
    simp only [Bool.and_eq_true, beq_iff_eq, not_and]
    intro hid
    rw [h p hp hid]
    simp
  · intro db2 h2
    unfold cliente_obter_produto
    rw [List.find?_eq_none]
    intro p hp
    simp [h2 p hp]

/-! ## Shared helper for the validation-error claims -/

/-- A validation error of the item loop propagates to the endpoint's response
with the database unchanged. -/
theorem criar_pedido_of_validar_error (cliente : Option String) (it : ItemReq)
    (rest : List ItemReq) (db : DB) (rnd : Nat → Fin 36) (fuel : Nat)
    (e : ValErr) (he : validarItens db (it :: rest) = .error e) :
    cliente_criar_pedido ⟨cliente, it :: rest⟩ db rnd fuel = (e.toResult, db) := by
  unfold cliente_criar_pedido
  simp only [List.isEmpty_cons, he, Bool.false_eq_true, if_false]

/-- C3 (amended). Generation-time collisions are retried: a returned code is
never one already in the store. But an insert-time uniqueness violation (a
code committed by another request between generation and insert) is not
retried: the write phase rolls back and surfaces the generic 500 error. -/
theorem claim_C3_amended (db : DB) (rnd : Nat → Fin 36) (fuel : Nat)
    (c : String) (cliente : Option String) (infos : List ItemInfo) (total : ℚ)
    (codigo : String) :
    (gerar_codigo_retirada db rnd fuel = some c → codeExists db c = false) ∧
    (codeExists db codigo = true →
       criarPedidoFinalize db cliente infos total codigo = (.errInterno, db)) := by
  constructor
  · intro h
    exact (gerar_codigo_retirada_spec db rnd fuel c h).1
  · intro h
    unfold criarPedidoFinalize
    rw [if_pos h]

/-- C6 (amended). Validation is fail-fast per entry in sequence order; within
a single entry the checks follow the spec's step order (parse, positivity,
existence, availability), and the first failing check of the first failing
entry is reported, regardless of later entries. -/
theorem claim_C6_amended (db : DB) (rest : List ItemReq) (pv qv : JVal)
    (pid q : Int) (cliente : Option String) (rnd : Nat → Fin 36) (fuel : Nat)
    (hpv : pyInt pv = some pid) (hqv : pyInt qv = some q) :
    (∀ e : ValErr, validarItens db (⟨some pv, some qv⟩ :: rest) = .error e →
       cliente_criar_pedido ⟨cliente, ⟨some pv, some qv⟩ :: rest⟩ db rnd fuel
         = (e.toResult, db)) ∧
    (q ≤ 0 →
       validarItens db (⟨some pv, some qv⟩ :: rest)
         = .error (.quantidadeInvalida pid)) ∧
    (0 < q → db.produtos.find? (fun p => p.id == pid) = none →
       validarItens db (⟨some pv, some qv⟩ :: rest)
         = .error (.naoEncontrado pid)) ∧
    (∀ prod : Produto, 0 < q →
       db.produtos.find? (fun p => p.id == pid) = some prod →
       prod.disponivel = false →
       validarItens db (⟨some pv, some qv⟩ :: rest)
         = .error (.indisponivel pid)) := by
  refine ⟨?_, ?_, ?_, ?_⟩
  · intro e he
    exact criar_pedido_of_validar_error cliente _ rest db rnd fuel e he
  · intro hq
    simp only [validarItens, hpv, hqv]
    rw [if_pos hq]
  · intro hq hf
    simp only [validarItens, hpv, hqv, hf]
    rw [if_neg (not_le.mpr hq)]
  · intro prod hq hf hd
    simp only [validarItens, hpv, hqv, hf, hd]
    rw [if_neg (not_le.mpr hq)]
    simp

/-- C7 (amended). A quantity given as a string that does not parse as an
integer (such as `"2.5"`) fails with the 400 `MalformedInput` response and
creates no rows; but a non-integral JSON *number* does not error — Python's
`int()` truncates it toward zero and the order is accepted. -/
theorem claim_C7_amended (db : DB) (rnd : Nat → Fin 36) (fuel : Nat)
    (cliente : Option String) (rest : List ItemReq) (pid : Int) (s : String)
    (q : ℚ) (hs : pyParseInt s = none) :
    cliente_criar_pedido ⟨cliente, ⟨some (.jint pid), some (.jstr s)⟩ :: rest⟩
        db rnd fuel = (.errValorInvalido, db) ∧
    pyInt (.jfloat q) = some (ratTrunc q) := by
  constructor
  · have hval : validarItens db (⟨some (.jint pid), some (.jstr s)⟩ :: rest)
        = .error .valorInvalido := by
      simp only [validarItens, pyInt, hs]
    exact criar_pedido_of_validar_error cliente _ rest db rnd fuel _ hval
  · rfl

/-! ## Concrete scenario data -/

instance (db : DB) : Decidable (DB.wf db) := by
  unfold DB.wf; infer_instance

/-- Available catalog product, id 1, price 5. -/
def prodA : Produto := ⟨1, "Coxinha", "", 5, "Geral", none, true⟩

/-- Unavailable catalog product, id 2, price 4. -/
def prodIndisp : Produto := ⟨2, "Torta", "", 4, "Geral", none, false⟩

/-- Fresh store holding only `prodA`. -/
def db0 : DB := ⟨[prodA], [], [], 2, 1, 1⟩

/-- Store holding `prodA` and the unavailable `prodIndisp`. -/
def dbDois : DB := ⟨[prodA, prodIndisp], [], [], 3, 1, 1⟩

/-- Degenerate randomness: every character draw is index 0, i.e. `A`. -/
def rnd0 : Nat → Fin 36 := fun _ => ⟨0, by decide⟩

/-- An order already committed under code `AAAAAAA` (state seen by a request
whose insert races a concurrent commit of the same code). -/
def pedidoB : Pedido := ⟨1, none, "AAAAAAA", "PENDENTE", 5⟩

/-- `db0` after the concurrent request committed `pedidoB`. -/
def db1 : DB := ⟨[prodA], [pedidoB], [], 2, 2, 1⟩

/-- Valid order request: 2 × product 1. -/
def reqA : PedidoReq := ⟨none, [⟨some (.jint 1), some (.jint 2)⟩]⟩

/-- The store after `reqA` succeeds against `db0`. -/
def dbA : DB := ⟨[prodA], [⟨1, none, "AAAAAAA", "PENDENTE", 10⟩],
  [⟨1, 1, 1, 2, 5⟩], 2, 2, 2⟩

/-- Empty item list. -/
def reqVazio : PedidoReq := ⟨none, []⟩

/-- First entry references nonexistent product 99 (a step-4 violation);
second entry has quantity 0 for existing product 1 (a step-3 violation). -/
def reqC6 : PedidoReq :=
  ⟨none, [⟨some (.jint 99), some (.jint 1)⟩, ⟨some (.jint 1), some (.jint 0)⟩]⟩

/-- Entry with the non-integral JSON number 2.5 as quantity. -/
def reqC7 : PedidoReq := ⟨none, [⟨some (.jint 1), some (.jfloat (mkRat 5 2))⟩]⟩

/-- Admin create-product request. -/
def nprX : NovoProdutoReq := ⟨some "Suco", some (.jint 3), none, none, none, none⟩

/-- Admin price update to 7. -/
def updX : ProdutoUpdateReq := ⟨none, none, some (.jint 7), none, none, none⟩

/-! ## Counterexamples -/

/-- C3 counterexample. Concrete interleaving: request A generates `AAAAAAA`
against `db0`; a concurrent request commits that code (state `db1`); A's
insert then hits the uniqueness constraint and the operation returns the
generic 500 error after rollback — the conflict is observable in the caller's
response, not retried. -/
theorem claim_C3_counterexample :
    gerar_codigo_retirada db0 rnd0 1 = some "AAAAAAA" ∧
    codeExists db1 "AAAAAAA" = true ∧
    criarPedidoFinalize db1 none [⟨1, 2, 5⟩] 10 "AAAAAAA"
      = (.errInterno, db1) := by
  decide

/-- C6 counterexample. On `reqC6` the code reports the first entry's step-4
violation (`ProductNotFound` 99), not the second entry's step-3 violation
(quantity 0 for product 1), so step-3 violations are not reported before
step-4 violations across entries. -/
theorem claim_C6_counterexample :
    (cliente_criar_pedido reqC6 db0 rnd0 1).1 = .errProdutoNaoEncontrado 99 ∧
    (cliente_criar_pedido reqC6 db0 rnd0 1).1 ≠ .errQuantidadeInvalida 1 := by
  decide

unseal Rat.mul Rat.add in
/-- C7 counterexample. A quantity given as the non-integral JSON number 2.5
does not fail with `MalformedInput`: Python's `int(2.5)` truncates to 2 and
the order is created (201, total 10, one header row, a line item with
quantity 2). -/
theorem claim_C7_counterexample :
    (cliente_criar_pedido reqC7 db0 rnd0 1).1 = .ok 1 "AAAAAAA" 10 ∧
    ((cliente_criar_pedido reqC7 db0 rnd0 1).2.itens_pedido.map
      ItemPedido.quantidade) = [2] ∧
    (cliente_criar_pedido reqC7 db0 rnd0 1).2.pedidos.length = 1 := by
  decide

/-! ## Witnesses -/

unseal Rat.mul Rat.add in
/-- C1 witness at `reqA` on `db0`. -/
theorem claim_C1_witness :
    (∃ ped ∈ dbA.pedidos, ped.id = 1 ∧ ped.valor_total = 10) ∧
    (10 : ℚ) = ((dbA.itens_pedido.filter fun it => it.pedido_id == 1).map
      fun it => (it.quantidade : ℚ) * it.preco_unitario_compra).sum ∧
    ∀ it ∈ dbA.itens_pedido.filter fun it => it.pedido_id == 1,
      ∃ p, db0.produtos.find? (fun r => r.id == it.produto_id) = some p ∧
           it.preco_unitario_compra = p.preco :=
  claim_C1 reqA db0 rnd0 1 1 "AAAAAAA" 10 dbA (by decide) (by decide)

/-- C2 witness: the empty-item-list failure writes nothing. -/
theorem claim_C2_witness :
    (cliente_criar_pedido reqVazio db0 rnd0 1).2 = db0 :=
  claim_C2 reqVazio db0 rnd0 1 (by decide)

/-- C3 (amended) witness: generation against `db0` avoids stored codes, and
the insert-time conflict in `db1` surfaces the 500 with no write. -/
theorem claim_C3_amended_witness :
    codeExists db0 "AAAAAAA" = false ∧
    criarPedidoFinalize db1 none [⟨1, 2, 5⟩] 10 "AAAAAAA"
      = (.errInterno, db1) :=
  ⟨(claim_C3_amended db0 rnd0 1 "AAAAAAA" none [] 0 "").1 (by decide),
   (claim_C3_amended db1 rnd0 1 "" none [⟨1, 2, 5⟩] 10 "AAAAAAA").2 (by decide)⟩

/-- C4 witness: format and freshness of a concretely generated code, and
uniqueness preserved by a concrete PlaceOrder and a concrete status update. -/
theorem claim_C4_witness :
    ("AAAAAAA".length = 7 ∧ (∀ ch ∈ "AAAAAAA".data, ch ∈ caracteres) ∧
      codeExists db0 "AAAAAAA" = false) ∧
    codesUnique (cliente_criar_pedido reqA db0 rnd0 1).2 ∧
    codesUnique (admin_atualizar_status_pedido "AAAAAAA" (some "pronto") db1).2 := by
  refine ⟨?_, ?_, ?_⟩
  · exact (claim_C4 db0 rnd0 1 "AAAAAAA" reqA nprX 1 1 updX "" none).1 (by decide)
  · exact ((claim_C4 db0 rnd0 1 "AAAAAAA" reqA nprX 1 1 updX "" none).2
      (by decide)).1
  · exact ((claim_C4 db1 rnd0 1 "AAAAAAA" reqA nprX 1 1 updX "AAAAAAA"
      (some "pronto")).2 (by decide)).2.2.2.2

/-- C5 witness: a price update of product 1 leaves orders, line items and the
other product row untouched. -/
theorem claim_C5_witness :
    (admin_atualizar_produto 1 updX dbDois).2.pedidos = dbDois.pedidos ∧
    (admin_atualizar_produto 1 updX dbDois).2.itens_pedido = dbDois.itens_pedido ∧
    prodIndisp ∈ (admin_atualizar_produto 1 updX dbDois).2.produtos := by
  obtain ⟨h1, h2, h3⟩ := claim_C5 1 updX dbDois
  exact ⟨h1, h2, h3 prodIndisp (by decide) (by decide)⟩

/-- C6 (amended) witness: a head entry with quantity 0 reports
`InvalidQuantity`; a head entry with a nonexistent product and positive
quantity reports `ProductNotFound`. -/
theorem claim_C6_amended_witness :
    validarItens db0 [⟨some (.jint 1), some (.jint 0)⟩]
      = .error (.quantidadeInvalida 1) ∧
    validarItens db0 [⟨some (.jint 99), some (.jint 1)⟩]
      = .error (.naoEncontrado 99) :=
  ⟨(claim_C6_amended db0 [] (.jint 1) (.jint 0) 1 0 none rnd0 1 rfl rfl).2.1
      (by decide),
   (claim_C6_amended db0 [] (.jint 99) (.jint 1) 99 1 none rnd0 1 rfl rfl).2.2.1
      (by decide) (by decide)⟩

/-- C7 (amended) witness: quantity `"2.5"` (a string) yields the 400 with no
write, while the JSON number 2.5 truncates to 2. -/
theorem claim_C7_amended_witness :
    cliente_criar_pedido ⟨none, [⟨some (.jint 1), some (.jstr "2.5")⟩]⟩
        db0 rnd0 1 = (.errValorInvalido, db0) ∧
    pyInt (.jfloat (mkRat 5 2)) = some 2 := by
  obtain ⟨h1, h2⟩ := claim_C7_amended db0 rnd0 1 none [] 1 "2.5" (mkRat 5 2)
    (by decide)
  exact ⟨h1, h2.trans (by decide)⟩

/-- C8 witness at `reqA` on `db0` (all prices positive). -/
theorem claim_C8_witness :
    (cliente_criar_pedido reqA db0 rnd0 1).1 ≠ .errValorTotalInvalido :=
  claim_C8 reqA db0 rnd0 1 (by decide)

/-- C9 witness: deleting referenced product 1 from `dbA` is refused with no
change; deleting from the store without line items succeeds, and indeed no
line item references it. -/
theorem claim_C9_witness :
    admin_deletar_produto 1 dbA = (.errConflito, dbA) ∧
    ∀ it ∈ db0.itens_pedido, it.produto_id ≠ 1 :=
  ⟨(claim_C9 1 dbA).1 (by decide) (by decide),
   (claim_C9 1 db0).2 (by decide)⟩

/-- C10 witness: the unavailable product 2 and the absent product 2 produce
the same 404 outcome. -/
theorem claim_C10_witness :
    cliente_obter_produto 2 dbDois = none ∧
    cliente_obter_produto 2 db0 = none := by
  obtain ⟨h1, h2⟩ := claim_C10 dbDois 2 (by decide)
  exact ⟨h1, h2 db0 (by decide)⟩
